import Mathlib

/-!
Verification of the Cosmozoom tile-proxy backend (FastAPI, Python) against its
natural-language specification.  The Python handlers in
`Backend/{gibs,moon,mars,mercury}_service.py` are shallowly embedded as pure
Lean functions: each per-body tile endpoint becomes a resolution function
(route-level query constraints, then the handler's validation steps, then the
upstream URL string) plus a classification function mapping the outcome of the
single upstream GET to the client-facing result.  The upstream fetch itself is
abstracted as an oracle `String → FetchOutcome` so that fetch-independence of
validation failures is expressible.
-/

namespace Cosmozoom

/-- Client-facing error taxonomy kinds of the design (spec section 7), plus
`RequestValidation` for rejections produced by FastAPI's declarative
query-parameter constraints (`ge`/`le`/`regex` on `Query(...)`), which the
framework reports with HTTP 422 before the handler body runs. -/
inductive ErrKind where
  | RequestValidation
  | InvalidDate
  | ZoomOutOfRange
  | CoordinatesOutOfBounds
  | UnsupportedLayer
  | UnsupportedFormat
  | TileNotFound
  | UpstreamError
  | NetworkError
  | Timeout
  deriving DecidableEq

deriving instance DecidableEq for Except

/-- One constructor per distinct `raise HTTPException(...)` site (or framework
rejection) in the four tile handlers, carrying the context the site reports. -/
inductive ApiError where
  | requestValidation
  | invalidDateFormat (provided : String)
  | futureDate (provided : String)
  | zoomOutOfRange (provided minZoom maxZoom : Int)
  | coordsOutOfBounds (z : Int)
  | xOutOfBounds (matrix : String)
  | yOutOfBounds (matrix : String)
  | unsupportedLayer (provided : String) (supported : List String)
  | unsupportedFormat (provided : String)
  | tileNotFound (url : String)
  | upstreamStatus (code : Nat)
  | upstreamError502 (code : Nat)
  | networkError
  | requestTimeout
  deriving DecidableEq

/-- HTTP status code attached to each error site in the source. -/
def ApiError.status : ApiError → Nat
  | .requestValidation => 422
  | .invalidDateFormat _ => 400
  | .futureDate _ => 400
  | .zoomOutOfRange _ _ _ => 400
  | .coordsOutOfBounds _ => 400
  | .xOutOfBounds _ => 400
  | .yOutOfBounds _ => 400
  | .unsupportedLayer _ _ => 422
  | .unsupportedFormat _ => 406
  | .tileNotFound _ => 404
  | .upstreamStatus code => code
  | .upstreamError502 _ => 502
  | .networkError => 502
  | .requestTimeout => 502

/-- Taxonomy kind of each error site. -/
def ApiError.kind : ApiError → ErrKind
  | .requestValidation => .RequestValidation
  | .invalidDateFormat _ => .InvalidDate
  | .futureDate _ => .InvalidDate
  | .zoomOutOfRange _ _ _ => .ZoomOutOfRange
  | .coordsOutOfBounds _ => .CoordinatesOutOfBounds
  | .xOutOfBounds _ => .CoordinatesOutOfBounds
  | .yOutOfBounds _ => .CoordinatesOutOfBounds
  | .unsupportedLayer _ _ => .UnsupportedLayer
  | .unsupportedFormat _ => .UnsupportedFormat
  | .tileNotFound _ => .TileNotFound
  | .upstreamStatus _ => .UpstreamError
  | .upstreamError502 _ => .UpstreamError
  | .networkError => .NetworkError
  | .requestTimeout => .Timeout

/-- Outcome of the single upstream `httpx` GET, as the handlers distinguish it:
a response with a status code and raw body bytes, a deadline expiry
(`httpx.TimeoutException`), or any other transport failure
(`httpx.RequestError` / connection problems). -/
inductive FetchOutcome where
  | resp (status : Nat) (content : List Nat)
  | timeout
  | connError
  deriving DecidableEq

/-- Successful proxy response: raw bytes, `Content-Type`, and `Cache-Control`. -/
structure TileResponse where
  content : List Nat
  mediaType : String
  cacheControl : String
  deriving DecidableEq

/-- Python `dict.get(k, d)` over an association list. -/
def dictGet (m : List (String × String)) (k d : String) : String :=
  match m.find? (fun p => p.1 == k) with
  | some p => p.2
  | none => d

/-- Association-list lookup, Python `dict.get(k)` returning `None` on a miss. -/
def lookup? (m : List (String × String)) (k : String) : Option String :=
  (m.find? (fun p => p.1 == k)).map (fun p => p.2)

/-- config.CONTENT_TYPE_MAP: file format to HTTP Content-Type header. -/
def CONTENT_TYPE_MAP : List (String × String) :=
  [("jpg", "image/jpeg"), ("jpeg", "image/jpeg"),
   ("png", "image/png"), ("png8", "image/png"),
   ("tif", "image/tiff"), ("tiff", "image/tiff")]

/-- Python `str.lower()` (ASCII model, matching the alias keys in the source). -/
def pyLower (s : String) : String := ⟨s.data.map Char.toLower⟩

/-- Python `str.strip()`: drop leading and trailing whitespace. -/
def pyStrip (s : String) : String :=
  ⟨((s.data.dropWhile Char.isWhitespace).reverse.dropWhile Char.isWhitespace).reverse⟩

/-- Calendar date as Python `datetime.date` carries it. -/
structure YMD where
  year : Nat
  month : Nat
  day : Nat
  deriving DecidableEq

/-- Python `datetime.datetime` value: a calendar date plus a time of day
(hours, minutes, seconds and microseconds collapsed into one counter, which is
faithful for the comparisons the code performs because `strptime` of a plain
date yields a datetime whose whole time-of-day part is zero). -/
structure PyDateTime where
  date : YMD
  timeOfDay : Nat
  deriving DecidableEq

/-- Strict lexicographic order on calendar dates (Python `date.__gt__`). -/
def ymdAfter (a b : YMD) : Bool :=
  a.year > b.year ||
    (a.year == b.year && (a.month > b.month ||
      (a.month == b.month && a.day > b.day)))

/-- Python `datetime.__gt__`: field-by-field lexicographic comparison. -/
def pyAfter (a b : PyDateTime) : Bool :=
  ymdAfter a.date b.date || (a.date == b.date && a.timeOfDay > b.timeOfDay)

/-- Gregorian leap-year rule used by Python `datetime`. -/
def isLeapYear (y : Nat) : Bool :=
  y % 4 == 0 && (y % 100 != 0 || y % 400 == 0)

/-- Days in a month of the proleptic Gregorian calendar. -/
def daysInMonth (y m : Nat) : Nat :=
  if m == 2 then (if isLeapYear y then 29 else 28)
  else if m == 4 || m == 6 || m == 9 || m == 11 then 30
  else 31

def isDigitChar (c : Char) : Bool := '0' ≤ c && c ≤ '9'

def digitVal (c : Char) : Nat := c.toNat - '0'.toNat

/-- The FastAPI route constraint `regex=r"^\d{4}-\d{2}-\d{2}$"` on the Earth
`date` query parameter (ASCII-digit model). -/
def dateRegexMatch (s : String) : Bool :=
  match s.data with
  | [y1, y2, y3, y4, h1, m1, m2, h2, d1, d2] =>
      isDigitChar y1 && isDigitChar y2 && isDigitChar y3 && isDigitChar y4 &&
      h1 == '-' && isDigitChar m1 && isDigitChar m2 && h2 == '-' &&
      isDigitChar d1 && isDigitChar d2
  | _ => false

/-- Python `datetime.strptime(s, "%Y-%m-%d")` on the ten-character
digit-digit-digit-digit,dash,digit-digit,dash,digit-digit strings admitted by
the route regex: succeeds exactly when the fields denote a real proleptic
Gregorian calendar date with year at least `datetime.MINYEAR = 1`.  (strptime
additionally tolerates one-digit month or day fields, but such strings never
reach the handler because the route regex rejects them with 422 first, so the
model fixes the two-digit form.) -/
def parsedYear (a b c d : Char) : Nat :=
  ((digitVal a * 10 + digitVal b) * 10 + digitVal c) * 10 + digitVal d

def parsedTwo (a b : Char) : Nat := digitVal a * 10 + digitVal b

def strptimeYmd (s : String) : Option YMD :=
  match s.data with
  | [y1, y2, y3, y4, h1, m1, m2, h2, d1, d2] =>
      if isDigitChar y1 && isDigitChar y2 && isDigitChar y3 && isDigitChar y4 &&
         h1 == '-' && isDigitChar m1 && isDigitChar m2 && h2 == '-' &&
         isDigitChar d1 && isDigitChar d2 then
        if 1 ≤ parsedYear y1 y2 y3 y4 ∧ 1 ≤ parsedTwo m1 m2 ∧ parsedTwo m1 m2 ≤ 12 ∧
           1 ≤ parsedTwo d1 d2 ∧
           parsedTwo d1 d2 ≤ daysInMonth (parsedYear y1 y2 y3 y4) (parsedTwo m1 m2) then
          some ⟨parsedYear y1 y2 y3 y4, parsedTwo m1 m2, parsedTwo d1 d2⟩
        else none
      else none
  | _ => none

namespace Earth

def GIBS_BASE_URL : String := "https://gibs.earthdata.nasa.gov/wmts/epsg3857/best"

def EARTH_DEFAULT_LAYER : String := "VIIRS_SNPP_CorrectedReflectance_TrueColor"

def EARTH_DEFAULT_DATE : String := "2025-10-03"

def EARTH_DEFAULT_TMS : String := "GoogleMapsCompatible_Level9"

def EARTH_DEFAULT_FORMAT : String := "jpg"

def EARTH_MAX_ZOOM : Int := 9

def EARTH_CACHE_MAX_AGE : Nat := 86400

/-- Formats admitted by the route constraint `regex="^(jpg|jpeg|png|png8)$"`. -/
def EARTH_FORMATS : List String := ["jpg", "jpeg", "png", "png8"]

/-- FastAPI query-parameter constraints declared on GET /earth/tile: the date
regex, `ge=0, le=EARTH_MAX_ZOOM` on `z`, `ge=0` on `y` and `x`, and the format
regex.  A request violating any of them is rejected by the framework with a
422 response before `get_earth_tile` runs. -/
def earth_route_ok (date : String) (z y x : Int) (format : String) : Bool :=
  dateRegexMatch date && decide (0 ≤ z) && decide (z ≤ EARTH_MAX_ZOOM) &&
    decide (0 ≤ y) && decide (0 ≤ x) && EARTH_FORMATS.contains format

/-- STEP 1 of `get_earth_tile`: parse the date with strptime (`ValueError`
becomes the 400 "Invalid date format" response) and reject dates strictly
later than `datetime.utcnow()` with the 400 "Invalid date" response. -/
def validate_earth_date (date : String) (now : PyDateTime) : Except ApiError Unit :=
  match strptimeYmd date with
  | none => .error (.invalidDateFormat date)
  | some p =>
      if pyAfter ⟨p, 0⟩ now then .error (.futureDate date) else .ok ()

/-- STEP 2 of `get_earth_tile`: `max_tiles = 2 ** z`; reject when
`x >= max_tiles or y >= max_tiles or x < 0 or y < 0`.  (The handler only runs
with `z ≥ 0`; on negative `z` Python computes a fractional power for which the
integer comparisons coincide with this `z.toNat` model.) -/
def earth_coords_check (z y x : Int) : Except ApiError Unit :=
  if x ≥ 2 ^ z.toNat ∨ y ≥ 2 ^ z.toNat ∨ x < 0 ∨ y < 0 then
    .error (.coordsOutOfBounds z)
  else .ok ()

/-- STEP 3 of `get_earth_tile`: the GIBS WMTS URL. -/
def earth_tile_url (layer date tms : String) (z y x : Int) (format : String) : String :=
  GIBS_BASE_URL ++ "/" ++ layer ++ "/default/" ++ date ++ "/" ++ tms ++ "/" ++
    toString z ++ "/" ++ toString y ++ "/" ++ toString x ++ "." ++ format

/-- Everything `get_earth_tile` does before the upstream GET: the framework's
query-parameter validation, then STEP 1 (date), STEP 2 (coordinates) and
STEP 3 (URL construction) in the handler's order. -/
def earth_resolve (layer date : String) (z y x : Int) (tms format : String)
    (now : PyDateTime) : Except ApiError String :=
  if earth_route_ok date z y x format then
    match validate_earth_date date now with
    | .error e => .error e
    | .ok _ =>
      match earth_coords_check z y x with
      | .error e => .error e
      | .ok _ => .ok (earth_tile_url layer date tms z y x format)
  else .error .requestValidation

/-- STEPS 4 and 5 of `get_earth_tile`: a 404 response becomes the 404 "Tile
not found" error; `response.raise_for_status()` turns any other non-2xx status
into an `httpx.HTTPStatusError`, re-raised with the same status code; a 2xx
response is returned with the Content-Type looked up from CONTENT_TYPE_MAP
(default image/jpeg); `httpx.HTTPError` transport failures, timeouts
included, become the 502 "Network error" response. -/
def earth_classify (format url : String) (r : FetchOutcome) : Except ApiError TileResponse :=
  match r with
  | .resp status content =>
      if status == 404 then .error (.tileNotFound url)
      else if 200 ≤ status ∧ status ≤ 299 then
        .ok ⟨content, dictGet CONTENT_TYPE_MAP format "image/jpeg",
             "public, max-age=" ++ toString EARTH_CACHE_MAX_AGE⟩
      else .error (.upstreamStatus status)
  | .timeout => .error .networkError
  | .connError => .error .networkError

/-- The whole GET /earth/tile endpoint, the upstream GET abstracted as an
oracle from the requested URL to its outcome. -/
def get_earth_tile (layer date : String) (z y x : Int) (tms format : String)
    (now : PyDateTime) (fetch : String → FetchOutcome) : Except ApiError TileResponse :=
  match earth_resolve layer date z y x tms format now with
  | .error e => .error e
  | .ok url => earth_classify format url (fetch url)

end Earth

namespace Moon

def TREK_MOON_BASE_URL : String := "https://trek.nasa.gov/tiles/Moon/EQ"

def MOON_DEFAULT_LAYER : String := "LRO_WAC_Mosaic_Global_303ppd_v02"

def MOON_DEFAULT_VERSION : String := "1.0.0"

def MOON_DEFAULT_STYLE : String := "default"

def MOON_DEFAULT_TMS : String := "default028mm"

def MOON_DEFAULT_FORMAT : String := "jpg"

def MOON_MAX_ZOOM : Int := 10

def MOON_CACHE_MAX_AGE : Nat := 2592000

/-- Formats admitted by the route constraint `regex="^(jpg|jpeg|png|tif|tiff)$"`. -/
def MOON_FORMATS : List String := ["jpg", "jpeg", "png", "tif", "tiff"]

/-- FastAPI query-parameter constraints declared on GET /moon/tile:
`ge=0, le=MOON_MAX_ZOOM` on `z`, `ge=0` on `y` and `x`, the format regex.
Violations are rejected by the framework with 422 before the handler runs. -/
def moon_route_ok (z y x : Int) (format : String) : Bool :=
  decide (0 ≤ z) && decide (z ≤ MOON_MAX_ZOOM) && decide (0 ≤ y) &&
    decide (0 ≤ x) && MOON_FORMATS.contains format

/-- STEP 1 of `get_moon_tile`: the same `2 ** z` square-matrix bound check as
the Earth handler. -/
def moon_coords_check (z y x : Int) : Except ApiError Unit :=
  if x ≥ 2 ^ z.toNat ∨ y ≥ 2 ^ z.toNat ∨ x < 0 ∨ y < 0 then
    .error (.coordsOutOfBounds z)
  else .ok ()

/-- STEP 2 of `get_moon_tile`: the Trek WMTS URL. -/
def moon_tile_url (layer version style tms : String) (z y x : Int)
    (format : String) : String :=
  TREK_MOON_BASE_URL ++ "/" ++ layer ++ "/" ++ version ++ "/" ++ style ++ "/" ++
    tms ++ "/" ++ toString z ++ "/" ++ toString y ++ "/" ++ toString x ++ "." ++ format

/-- Everything `get_moon_tile` does before the upstream GET. -/
def moon_resolve (z y x : Int) (layer version style tms format : String) :
    Except ApiError String :=
  if moon_route_ok z y x format then
    match moon_coords_check z y x with
    | .error e => .error e
    | .ok _ => .ok (moon_tile_url layer version style tms z y x format)
  else .error .requestValidation

/-- STEPS 3 and 4 of `get_moon_tile`: identical outcome classification to the
Earth handler (404, `raise_for_status`, Content-Type map, `httpx.HTTPError`),
with the Moon cache lifetime. -/
def moon_classify (format url : String) (r : FetchOutcome) : Except ApiError TileResponse :=
  match r with
  | .resp status content =>
      if status == 404 then .error (.tileNotFound url)
      else if 200 ≤ status ∧ status ≤ 299 then
        .ok ⟨content, dictGet CONTENT_TYPE_MAP format "image/jpeg",
             "public, max-age=" ++ toString MOON_CACHE_MAX_AGE⟩
      else .error (.upstreamStatus status)
  | .timeout => .error .networkError
  | .connError => .error .networkError

/-- The whole GET /moon/tile endpoint. -/
def get_moon_tile (z y x : Int) (layer version style tms format : String)
    (fetch : String → FetchOutcome) : Except ApiError TileResponse :=
  match moon_resolve z y x layer version style tms format with
  | .error e => .error e
  | .ok url => moon_classify format url (fetch url)

end Moon

namespace Mars

def TREK_MARS_BASE_URL : String := "https://trek.nasa.gov/tiles/Mars/EQ"

def MARS_DEFAULT_LAYER : String := "Mars_Viking_MDIM21_ClrMosaic_global_232m"

def MARS_DEFAULT_VERSION : String := "1.0.0"

def MARS_DEFAULT_STYLE : String := "default"

def MARS_DEFAULT_TMS : String := "default028mm"

def MARS_DEFAULT_FORMAT : String := "jpg"

def MARS_CACHE_MAX_AGE : Nat := 2592000

/-- mars_service.MAX_ZOOM is `int(os.getenv("MARS_MAX_ZOOM", "7"))`: the
environment override defaults to 7.  Functions below take the resolved value
as a parameter `maxZoom`; this constant is the default. -/
def MARS_DEFAULT_MAX_ZOOM : Int := 7

def MIN_ZOOM : Int := 0

def VIKING_ID : String := "Mars_Viking_MDIM21_ClrMosaic_global_232m"

def MOLA_ID : String := "Mars_MGS_MOLA_MEGR_global_463m"

/-- mars_service.SUPPORTED_LAYERS: lowercase alias to canonical layer ID. -/
def SUPPORTED_LAYERS : List (String × String) :=
  [("mars_viking_mdim21_clrmosaic_global_232m", VIKING_ID),
   ("viking", VIKING_ID),
   ("viking color mosaic", VIKING_ID),
   ("mars_viking", VIKING_ID),
   ("mars_mgs_mola_megr_global_463m", MOLA_ID),
   ("mola", MOLA_ID),
   ("mola elevation", MOLA_ID),
   ("mars_mgs_mola", MOLA_ID)]

/-- Formats admitted by the route constraint `regex="^(jpg|jpeg|png|tif|tiff)$"`. -/
def MARS_FORMATS : List String := ["jpg", "jpeg", "png", "tif", "tiff"]

/-- mars_service.validate_zoom_level: 400 "invalid_zoom" outside
[MIN_ZOOM, MAX_ZOOM]. -/
def validate_zoom_level (maxZoom z : Int) : Except ApiError Unit :=
  if z < MIN_ZOOM ∨ z > maxZoom then
    .error (.zoomOutOfRange z MIN_ZOOM maxZoom)
  else .ok ()

/-- mars_service.normalize_layer: strip whitespace, lower-case, look the
result up in SUPPORTED_LAYERS; a miss is the 422 "unsupported_layer" response
whose detail lists the Viking and MOLA metadata entries as the supported set. -/
def normalize_layer (layer : String) : Except ApiError String :=
  match lookup? SUPPORTED_LAYERS (pyLower (pyStrip layer)) with
  | some canonical => .ok canonical
  | none => .error (.unsupportedLayer layer [VIKING_ID, MOLA_ID])

/-- mars_service.validate_tile_coordinates: `max_tiles = 2 ** z`; 400
"coordinates_out_of_bounds" when `x >= max_tiles or y >= max_tiles or
x < 0 or y < 0`. -/
def validate_tile_coordinates (z x y : Int) : Except ApiError Unit :=
  if x ≥ 2 ^ z.toNat ∨ y ≥ 2 ^ z.toNat ∨ x < 0 ∨ y < 0 then
    .error (.coordsOutOfBounds z)
  else .ok ()

/-- FastAPI query-parameter constraints declared on GET /mars/tile:
`ge=MIN_ZOOM` on `z`, `ge=0` on `y` and `x`, the format regex. -/
def mars_route_ok (z y x : Int) (format : String) : Bool :=
  decide (MIN_ZOOM ≤ z) && decide (0 ≤ y) && decide (0 ≤ x) &&
    MARS_FORMATS.contains format

/-- STEP 2 of `get_mars_tile`: the Trek WMTS URL built from the canonical
layer. -/
def mars_tile_url (canonicalLayer version style tms : String) (z y x : Int)
    (format : String) : String :=
  TREK_MARS_BASE_URL ++ "/" ++ canonicalLayer ++ "/" ++ version ++ "/" ++ style ++
    "/" ++ tms ++ "/" ++ toString z ++ "/" ++ toString y ++ "/" ++ toString x ++
    "." ++ format

/-- Everything `get_mars_tile` does before the upstream GET: framework query
validation, then STEP 0 (`validate_zoom_level`, `normalize_layer`), STEP 1
(`validate_tile_coordinates`) and STEP 2 (URL construction) in order. -/
def mars_resolve (maxZoom z y x : Int) (layer version style tms format : String) :
    Except ApiError String :=
  if mars_route_ok z y x format then
    match validate_zoom_level maxZoom z with
    | .error e => .error e
    | .ok _ =>
      match normalize_layer layer with
      | .error e => .error e
      | .ok canonical =>
        match validate_tile_coordinates z x y with
        | .error e => .error e
        | .ok _ => .ok (mars_tile_url canonical version style tms z y x format)
  else .error .requestValidation

/-- STEPS 3 and 4 of `get_mars_tile`: identical outcome classification to the
Earth handler, with the Mars cache lifetime. -/
def mars_classify (format url : String) (r : FetchOutcome) : Except ApiError TileResponse :=
  match r with
  | .resp status content =>
      if status == 404 then .error (.tileNotFound url)
      else if 200 ≤ status ∧ status ≤ 299 then
        .ok ⟨content, dictGet CONTENT_TYPE_MAP format "image/jpeg",
             "public, max-age=" ++ toString MARS_CACHE_MAX_AGE⟩
      else .error (.upstreamStatus status)
  | .timeout => .error .networkError
  | .connError => .error .networkError

/-- The whole GET /mars/tile endpoint, parameterized by the resolved
MARS_MAX_ZOOM value. -/
def get_mars_tile (maxZoom z y x : Int) (layer version style tms format : String)
    (fetch : String → FetchOutcome) : Except ApiError TileResponse :=
  match mars_resolve maxZoom z y x layer version style tms format with
  | .error e => .error e
  | .ok url => mars_classify format url (fetch url)

end Mars

namespace Mercury

def TREK_MERCURY_BASE_URL : String := "https://trek.nasa.gov/tiles/Mercury/EQ"

def MERCURY_DEFAULT_LAYER : String :=
  "Mercury_MESSENGER_MDIS_Basemap_EnhancedColor_Mosaic_Global_665m"

def MERCURY_DEFAULT_VERSION : String := "1.0.0"

def MERCURY_DEFAULT_STYLE : String := "default"

def MERCURY_DEFAULT_TMS : String := "default028mm"

def MERCURY_DEFAULT_FORMAT : String := "jpg"

def MERCURY_CACHE_MAX_AGE : Nat := 2592000

/-- mercury_service.MAX_ZOOM. -/
def MAX_ZOOM : Int := 7

/-- Width of Mercury's tile matrix at zoom z: `max_tile_col = 2 ** (z + 1)`. -/
def max_tile_col (z : Int) : Int := 2 ^ (z + 1).toNat

/-- Height of Mercury's tile matrix at zoom z: `max_tile_row = 2 ** z`. -/
def max_tile_row (z : Int) : Int := 2 ^ z.toNat

/-- The `tile_matrix` string the Mercury handler reports in error details and
the X-Tile-Matrix header, for example "16×8" at zoom 3. -/
def matrix_string (z : Int) : String :=
  toString (max_tile_col z) ++ "×" ++ toString (max_tile_row z)

/-- FastAPI query-parameter constraints declared on GET /mercury/tile:
`ge=0` on `z`, `x` and `y` (the format parameter carries no regex). -/
def mercury_route_ok (z x y : Int) : Bool :=
  decide (0 ≤ z) && decide (0 ≤ x) && decide (0 ≤ y)

/-- Handler step 1: 406 "Unsupported format" unless `format.lower() == "jpg"`. -/
def mercury_format_check (format : String) : Except ApiError Unit :=
  if pyLower format ≠ "jpg" then .error (.unsupportedFormat format) else .ok ()

/-- Handler step 2: 400 "Zoom level out of range" when `z < 0 or z > MAX_ZOOM`. -/
def mercury_zoom_check (z : Int) : Except ApiError Unit :=
  if z < 0 ∨ z > MAX_ZOOM then .error (.zoomOutOfRange z 0 MAX_ZOOM) else .ok ()

/-- Handler step 3a: 400 "X coordinate out of bounds" when
`x < 0 or x >= max_tile_col`, reporting the tile matrix shape. -/
def mercury_x_check (z x : Int) : Except ApiError Unit :=
  if x < 0 ∨ x ≥ max_tile_col z then .error (.xOutOfBounds (matrix_string z)) else .ok ()

/-- Handler step 3b: 400 "Y coordinate out of bounds" when
`y < 0 or y >= max_tile_row`, reporting the tile matrix shape. -/
def mercury_y_check (z y : Int) : Except ApiError Unit :=
  if y < 0 ∨ y ≥ max_tile_row z then .error (.yOutOfBounds (matrix_string z)) else .ok ()

/-- Handler step 4: the Trek WMTS URL, using the caller's format string as the
file extension. -/
def mercury_tile_url (layer version style tms : String) (z y x : Int)
    (format : String) : String :=
  TREK_MERCURY_BASE_URL ++ "/" ++ layer ++ "/" ++ version ++ "/" ++ style ++ "/" ++
    tms ++ "/" ++ toString z ++ "/" ++ toString y ++ "/" ++ toString x ++ "." ++ format

/-- Everything `get_mercury_tile` does before the upstream GET: framework
query validation, then format, zoom, X and Y checks and URL construction in
the handler's order. -/
def mercury_resolve (z x y : Int) (layer version style tms format : String) :
    Except ApiError String :=
  if mercury_route_ok z x y then
    match mercury_format_check format with
    | .error e => .error e
    | .ok _ =>
      match mercury_zoom_check z with
      | .error e => .error e
      | .ok _ =>
        match mercury_x_check z x with
        | .error e => .error e
        | .ok _ =>
          match mercury_y_check z y with
          | .error e => .error e
          | .ok _ => .ok (mercury_tile_url layer version style tms z y x format)
  else .error .requestValidation

/-- Handler steps 5 and 6: a 404 response becomes the 404 "Tile not found"
error; any other status different from 200 becomes a 502 "Upstream service
error"; a 200 response is returned with the Content-Type looked up from
CONTENT_TYPE_MAP (default image/jpeg); `httpx.TimeoutException` becomes the
502 "Request timeout" response and any other `httpx.RequestError` the 502
"Network error" response. -/
def mercury_classify (format url : String) (r : FetchOutcome) : Except ApiError TileResponse :=
  match r with
  | .resp status content =>
      if status == 404 then .error (.tileNotFound url)
      else if status ≠ 200 then .error (.upstreamError502 status)
      else
        .ok ⟨content, dictGet CONTENT_TYPE_MAP format "image/jpeg",
             "public, max-age=" ++ toString MERCURY_CACHE_MAX_AGE⟩
  | .timeout => .error .requestTimeout
  | .connError => .error .networkError

/-- The whole GET /mercury/tile endpoint. -/
def get_mercury_tile (z x y : Int) (layer version style tms format : String)
    (fetch : String → FetchOutcome) : Except ApiError TileResponse :=
  match mercury_resolve z x y layer version style tms format with
  | .error e => .error e
  | .ok url => mercury_classify format url (fetch url)

end Mercury



/-! ## Helper lemmas (shared across claims) -/

/-- Comparing a midnight datetime against an arbitrary instant is the same as
comparing the calendar dates: the handler's `parsed_date > datetime.utcnow()`
is a day-granularity test. -/
theorem pyAfter_midnight (p : YMD) (now : PyDateTime) :
    pyAfter ⟨p, 0⟩ now = ymdAfter p now.date := by
  simp [pyAfter]

namespace Earth

theorem earth_coords_check_ok_iff (z y x : Int) :
    earth_coords_check z y x = .ok () ↔
      0 ≤ x ∧ x < 2 ^ z.toNat ∧ 0 ≤ y ∧ y < 2 ^ z.toNat := by
  unfold earth_coords_check
  split_ifs with h <;> simp <;> omega

theorem earth_coords_check_error_iff (z y x : Int) :
    earth_coords_check z y x = .error (.coordsOutOfBounds z) ↔
      ¬ (0 ≤ x ∧ x < 2 ^ z.toNat ∧ 0 ≤ y ∧ y < 2 ^ z.toNat) := by
  unfold earth_coords_check
  split_ifs with h <;> simp <;> omega

theorem earth_route_ok_iff (date : String) (z y x : Int) (format : String) :
    earth_route_ok date z y x format = true ↔
      (dateRegexMatch date = true ∧ 0 ≤ z ∧ z ≤ EARTH_MAX_ZOOM ∧ 0 ≤ y ∧ 0 ≤ x ∧
        EARTH_FORMATS.contains format = true) := by
  unfold earth_route_ok
  simp [Bool.and_eq_true, decide_eq_true_eq, and_assoc]

theorem validate_earth_date_default_ok (now : PyDateTime)
    (hnow : ymdAfter ⟨2025, 10, 3⟩ now.date = false) :
    validate_earth_date EARTH_DEFAULT_DATE now = .ok () := by
  unfold validate_earth_date
  rw [show strptimeYmd EARTH_DEFAULT_DATE = some ⟨2025, 10, 3⟩ from by decide]
  dsimp only
  rw [pyAfter_midnight, hnow]
  simp

theorem earth_resolve_isOk_iff (layer tms : String) (now : PyDateTime)
    (hnow : ymdAfter ⟨2025, 10, 3⟩ now.date = false) (z y x : Int) :
    (earth_resolve layer EARTH_DEFAULT_DATE z y x tms "jpg" now).isOk = true ↔
      0 ≤ z ∧ z ≤ EARTH_MAX_ZOOM ∧ 0 ≤ y ∧ y < 2 ^ z.toNat ∧ 0 ≤ x ∧ x < 2 ^ z.toNat := by
  unfold earth_resolve
  by_cases hr : earth_route_ok EARTH_DEFAULT_DATE z y x "jpg" = true
  · rw [if_pos hr]
    rw [validate_earth_date_default_ok now hnow]
    dsimp only
    rw [earth_route_ok_iff] at hr
    obtain ⟨-, hz0, hz9, hy0, hx0, -⟩ := hr
    rcases hc : earth_coords_check z y x with e | u
    · have hnot : ¬ (0 ≤ x ∧ x < 2 ^ z.toNat ∧ 0 ≤ y ∧ y < 2 ^ z.toNat) := by
        intro hb
        rw [(earth_coords_check_ok_iff z y x).mpr hb] at hc
        exact Except.noConfusion hc
      simp only [Except.isOk, Except.toBool, Bool.false_eq_true, false_iff]
      omega
    · cases u
      simp only [Except.isOk, Except.toBool, true_iff]
      rw [earth_coords_check_ok_iff] at hc
      omega
  · rw [if_neg hr]
    rw [earth_route_ok_iff] at hr
    simp only [show dateRegexMatch EARTH_DEFAULT_DATE = true from by decide,
      show EARTH_FORMATS.contains "jpg" = true from by decide, true_and, and_true] at hr
    simp only [Except.isOk, Except.toBool, Bool.false_eq_true, false_iff]
    omega

end Earth

namespace Moon

theorem moon_coords_check_ok_iff (z y x : Int) :
    moon_coords_check z y x = .ok () ↔
      0 ≤ x ∧ x < 2 ^ z.toNat ∧ 0 ≤ y ∧ y < 2 ^ z.toNat := by
  unfold moon_coords_check
  split_ifs with h <;> simp <;> omega

theorem moon_coords_check_error_iff (z y x : Int) :
    moon_coords_check z y x = .error (.coordsOutOfBounds z) ↔
      ¬ (0 ≤ x ∧ x < 2 ^ z.toNat ∧ 0 ≤ y ∧ y < 2 ^ z.toNat) := by
  unfold moon_coords_check
  split_ifs with h <;> simp <;> omega

theorem moon_route_ok_iff (z y x : Int) (format : String) :
    moon_route_ok z y x format = true ↔
      (0 ≤ z ∧ z ≤ MOON_MAX_ZOOM ∧ 0 ≤ y ∧ 0 ≤ x ∧
        MOON_FORMATS.contains format = true) := by
  unfold moon_route_ok
  simp [Bool.and_eq_true, decide_eq_true_eq, and_assoc]

theorem moon_resolve_isOk_iff (layer version style tms : String) (z y x : Int) :
    (moon_resolve z y x layer version style tms "jpg").isOk = true ↔
      0 ≤ z ∧ z ≤ MOON_MAX_ZOOM ∧ 0 ≤ y ∧ y < 2 ^ z.toNat ∧ 0 ≤ x ∧ x < 2 ^ z.toNat := by
  unfold moon_resolve
  by_cases hr : moon_route_ok z y x "jpg" = true
  · rw [if_pos hr]
    rw [moon_route_ok_iff] at hr
    obtain ⟨hz0, hz10, hy0, hx0, -⟩ := hr
    rcases hc : moon_coords_check z y x with e | u
    · have hnot : ¬ (0 ≤ x ∧ x < 2 ^ z.toNat ∧ 0 ≤ y ∧ y < 2 ^ z.toNat) := by
        intro hb
        rw [(moon_coords_check_ok_iff z y x).mpr hb] at hc
        exact Except.noConfusion hc
      simp only [Except.isOk, Except.toBool, Bool.false_eq_true, false_iff]
      omega
    · cases u
      simp only [Except.isOk, Except.toBool, true_iff]
      rw [moon_coords_check_ok_iff] at hc
      omega
  · rw [if_neg hr]
    rw [moon_route_ok_iff] at hr
    simp only [show MOON_FORMATS.contains "jpg" = true from by decide, and_true] at hr
    simp only [Except.isOk, Except.toBool, Bool.false_eq_true, false_iff]
    omega

end Moon

namespace Mars

theorem validate_zoom_level_ok_iff (maxZoom z : Int) :
    validate_zoom_level maxZoom z = .ok () ↔ 0 ≤ z ∧ z ≤ maxZoom := by
  unfold validate_zoom_level MIN_ZOOM
  split_ifs with h <;> simp <;> omega

theorem validate_zoom_level_error_iff (maxZoom z : Int) :
    validate_zoom_level maxZoom z = .error (.zoomOutOfRange z MIN_ZOOM maxZoom) ↔
      ¬ (0 ≤ z ∧ z ≤ maxZoom) := by
  unfold validate_zoom_level MIN_ZOOM
  split_ifs with h <;> simp <;> omega

theorem validate_tile_coordinates_ok_iff (z x y : Int) :
    validate_tile_coordinates z x y = .ok () ↔
      0 ≤ x ∧ x < 2 ^ z.toNat ∧ 0 ≤ y ∧ y < 2 ^ z.toNat := by
  unfold validate_tile_coordinates
  split_ifs with h <;> simp <;> omega

theorem validate_tile_coordinates_error_iff (z x y : Int) :
    validate_tile_coordinates z x y = .error (.coordsOutOfBounds z) ↔
      ¬ (0 ≤ x ∧ x < 2 ^ z.toNat ∧ 0 ≤ y ∧ y < 2 ^ z.toNat) := by
  unfold validate_tile_coordinates
  split_ifs with h <;> simp <;> omega

theorem mars_route_ok_iff (z y x : Int) (format : String) :
    mars_route_ok z y x format = true ↔
      (0 ≤ z ∧ 0 ≤ y ∧ 0 ≤ x ∧ MARS_FORMATS.contains format = true) := by
  unfold mars_route_ok MIN_ZOOM
  simp [Bool.and_eq_true, decide_eq_true_eq, and_assoc]

theorem normalize_layer_default : normalize_layer MARS_DEFAULT_LAYER = .ok VIKING_ID := by
  decide

theorem mars_resolve_isOk_iff (maxZoom : Int) (version style tms : String) (z y x : Int) :
    (mars_resolve maxZoom z y x MARS_DEFAULT_LAYER version style tms "jpg").isOk = true ↔
      0 ≤ z ∧ z ≤ maxZoom ∧ 0 ≤ y ∧ y < 2 ^ z.toNat ∧ 0 ≤ x ∧ x < 2 ^ z.toNat := by
  unfold mars_resolve
  by_cases hr : mars_route_ok z y x "jpg" = true
  · rw [if_pos hr]
    rw [mars_route_ok_iff] at hr
    obtain ⟨hz0, hy0, hx0, -⟩ := hr
    rcases hzc : validate_zoom_level maxZoom z with e | u
    · have hznot : ¬ (0 ≤ z ∧ z ≤ maxZoom) := by
        intro hb
        rw [(validate_zoom_level_ok_iff maxZoom z).mpr hb] at hzc
        exact Except.noConfusion hzc
      simp only [Except.isOk, Except.toBool, Bool.false_eq_true, false_iff]
      omega
    · cases u
      rw [validate_zoom_level_ok_iff] at hzc
      rw [normalize_layer_default]
      dsimp only
      rcases hc : validate_tile_coordinates z x y with e | u
      · have hnot : ¬ (0 ≤ x ∧ x < 2 ^ z.toNat ∧ 0 ≤ y ∧ y < 2 ^ z.toNat) := by
          intro hb
          rw [(validate_tile_coordinates_ok_iff z x y).mpr hb] at hc
          exact Except.noConfusion hc
        simp only [Except.isOk, Except.toBool, Bool.false_eq_true, false_iff]
        omega
      · cases u
        simp only [Except.isOk, Except.toBool, true_iff]
        rw [validate_tile_coordinates_ok_iff] at hc
        omega
  · rw [if_neg hr]
    rw [mars_route_ok_iff] at hr
    simp only [show MARS_FORMATS.contains "jpg" = true from by decide, and_true] at hr
    simp only [Except.isOk, Except.toBool, Bool.false_eq_true, false_iff]
    omega

end Mars

namespace Mercury

theorem mercury_format_check_ok_iff (format : String) :
    mercury_format_check format = .ok () ↔ pyLower format = "jpg" := by
  unfold mercury_format_check
  split_ifs with h <;> simp_all

theorem mercury_format_check_error (format : String) (h : pyLower format ≠ "jpg") :
    mercury_format_check format = .error (.unsupportedFormat format) := by
  simp [mercury_format_check, h]

theorem mercury_zoom_check_ok_iff (z : Int) :
    mercury_zoom_check z = .ok () ↔ 0 ≤ z ∧ z ≤ MAX_ZOOM := by
  unfold mercury_zoom_check
  split_ifs with h <;> simp <;> omega

theorem mercury_zoom_check_error_iff (z : Int) :
    mercury_zoom_check z = .error (.zoomOutOfRange z 0 MAX_ZOOM) ↔
      ¬ (0 ≤ z ∧ z ≤ MAX_ZOOM) := by
  unfold mercury_zoom_check
  split_ifs with h <;> simp <;> omega

theorem mercury_x_check_ok_iff (z x : Int) :
    mercury_x_check z x = .ok () ↔ 0 ≤ x ∧ x < max_tile_col z := by
  unfold mercury_x_check
  split_ifs with h <;> simp <;> omega

theorem mercury_x_check_error_iff (z x : Int) :
    mercury_x_check z x = .error (.xOutOfBounds (matrix_string z)) ↔
      ¬ (0 ≤ x ∧ x < max_tile_col z) := by
  unfold mercury_x_check
  split_ifs with h <;> simp <;> omega

theorem mercury_y_check_ok_iff (z y : Int) :
    mercury_y_check z y = .ok () ↔ 0 ≤ y ∧ y < max_tile_row z := by
  unfold mercury_y_check
  split_ifs with h <;> simp <;> omega

theorem mercury_y_check_error_iff (z y : Int) :
    mercury_y_check z y = .error (.yOutOfBounds (matrix_string z)) ↔
      ¬ (0 ≤ y ∧ y < max_tile_row z) := by
  unfold mercury_y_check
  split_ifs with h <;> simp <;> omega

theorem mercury_route_ok_iff (z x y : Int) :
    mercury_route_ok z x y = true ↔ (0 ≤ z ∧ 0 ≤ x ∧ 0 ≤ y) := by
  unfold mercury_route_ok
  simp [Bool.and_eq_true, decide_eq_true_eq, and_assoc]

theorem mercury_resolve_isOk_iff (layer version style tms format : String)
    (hf : pyLower format = "jpg") (z x y : Int) :
    (mercury_resolve z x y layer version style tms format).isOk = true ↔
      0 ≤ z ∧ z ≤ MAX_ZOOM ∧ 0 ≤ x ∧ x < max_tile_col z ∧ 0 ≤ y ∧ y < max_tile_row z := by
  unfold mercury_resolve
  by_cases hr : mercury_route_ok z x y = true
  · rw [if_pos hr]
    rw [mercury_route_ok_iff] at hr
    obtain ⟨hz0, hx0, hy0⟩ := hr
    rw [(mercury_format_check_ok_iff format).mpr hf]
    dsimp only
    rcases hzc : mercury_zoom_check z with e | u
    · have hznot : ¬ (0 ≤ z ∧ z ≤ MAX_ZOOM) := by
        intro hb
        rw [(mercury_zoom_check_ok_iff z).mpr hb] at hzc
        exact Except.noConfusion hzc
      simp only [Except.isOk, Except.toBool, Bool.false_eq_true, false_iff]
      omega
    · cases u
      rw [mercury_zoom_check_ok_iff] at hzc
      rcases hxc : mercury_x_check z x with e | u
      · have hxnot : ¬ (0 ≤ x ∧ x < max_tile_col z) := by
          intro hb
          rw [(mercury_x_check_ok_iff z x).mpr hb] at hxc
          exact Except.noConfusion hxc
        simp only [Except.isOk, Except.toBool, Bool.false_eq_true, false_iff]
        omega
      · cases u
        rw [mercury_x_check_ok_iff] at hxc
        rcases hyc : mercury_y_check z y with e | u
        · have hynot : ¬ (0 ≤ y ∧ y < max_tile_row z) := by
            intro hb
            rw [(mercury_y_check_ok_iff z y).mpr hb] at hyc
            exact Except.noConfusion hyc
          simp only [Except.isOk, Except.toBool, Bool.false_eq_true, false_iff]
          omega
        · cases u
          simp only [Except.isOk, Except.toBool, true_iff]
          rw [mercury_y_check_ok_iff] at hyc
          omega
  · rw [if_neg hr]
    rw [mercury_route_ok_iff] at hr
    simp only [Except.isOk, Except.toBool, Bool.false_eq_true, false_iff]
    omega

theorem mercury_resolve_ok_eq (layer version style tms format : String)
    (hf : pyLower format = "jpg") (z x y : Int)
    (hz0 : 0 ≤ z) (hz7 : z ≤ MAX_ZOOM) (hx0 : 0 ≤ x) (hxc : x < max_tile_col z)
    (hy0 : 0 ≤ y) (hyr : y < max_tile_row z) :
    mercury_resolve z x y layer version style tms format =
      .ok (mercury_tile_url layer version style tms z y x format) := by
  unfold mercury_resolve
  rw [if_pos ((mercury_route_ok_iff z x y).mpr ⟨hz0, hx0, hy0⟩)]
  rw [(mercury_format_check_ok_iff format).mpr hf]
  rw [(mercury_zoom_check_ok_iff z).mpr ⟨hz0, hz7⟩]
  rw [(mercury_x_check_ok_iff z x).mpr ⟨hx0, hxc⟩]
  rw [(mercury_y_check_ok_iff z y).mpr ⟨hy0, hyr⟩]

end Mercury

namespace Mars

theorem lookup_supported_values {k v : String}
    (h : lookup? SUPPORTED_LAYERS k = some v) : v = VIKING_ID ∨ v = MOLA_ID := by
  unfold lookup? at h
  cases hf : SUPPORTED_LAYERS.find? (fun p => p.1 == k) with
  | none => rw [hf] at h; exact Option.noConfusion h
  | some p =>
    rw [hf] at h
    simp at h
    have hm := List.mem_of_find?_eq_some hf
    subst h
    simp only [SUPPORTED_LAYERS, List.mem_cons, List.not_mem_nil, or_false] at hm
    rcases hm with hm | hm | hm | hm | hm | hm | hm | hm <;> subst hm <;>
      first
        | exact Or.inl rfl
        | exact Or.inr rfl

theorem normalize_layer_keys_dependent (s t : String)
    (h : pyLower (pyStrip s) = pyLower (pyStrip t)) (c : String) :
    normalize_layer s = .ok c ↔ normalize_layer t = .ok c := by
  unfold normalize_layer
  rw [h]
  cases hl : lookup? SUPPORTED_LAYERS (pyLower (pyStrip t)) with
  | none => simp
  | some v => simp

theorem normalize_layer_idempotent (s c : String)
    (h : normalize_layer s = .ok c) : normalize_layer c = .ok c := by
  unfold normalize_layer at h
  cases hl : lookup? SUPPORTED_LAYERS (pyLower (pyStrip s)) with
  | none => rw [hl] at h; exact Except.noConfusion h
  | some v =>
    rw [hl] at h
    simp only [Except.ok.injEq] at h
    subst h
    rcases lookup_supported_values hl with h | h <;> subst h <;> decide

end Mars

/-- Only real proleptic Gregorian calendar dates with year ≥ 1 survive the
strptime model: field bounds including the month-aware, leap-year-aware day
bound hold for every parse result. -/
theorem strptimeYmd_valid {s : String} {p : YMD} (h : strptimeYmd s = some p) :
    1 ≤ p.year ∧ 1 ≤ p.month ∧ p.month ≤ 12 ∧ 1 ≤ p.day ∧
      p.day ≤ daysInMonth p.year p.month := by
  unfold strptimeYmd at h
  split at h
  · split at h
    · split at h
      · rename_i hcond
        simp only [Option.some.injEq] at h
        subst h
        exact hcond
      · exact Option.noConfusion h
    · exact Option.noConfusion h
  · exact Option.noConfusion h

/-- Any format string that lower-cases to "jpg" hits either the "jpg" entry of
CONTENT_TYPE_MAP or the dict-get default; both give image/jpeg. -/
theorem dictGet_lower_jpg {format : String} (h : pyLower format = "jpg") :
    dictGet CONTENT_TYPE_MAP format "image/jpeg" = "image/jpeg" := by
  unfold dictGet CONTENT_TYPE_MAP
  simp only [List.find?]
  cases h1 : ("jpg" == format) with
  | true => simp
  | false =>
    cases h2 : ("jpeg" == format) with
    | true => simp [h1, h2]
    | false =>
      cases h3 : ("png" == format) with
      | true =>
        rw [beq_iff_eq] at h3
        subst h3
        exact absurd h (by decide)
      | false =>
        cases h4 : ("png8" == format) with
        | true =>
          rw [beq_iff_eq] at h4
          subst h4
          exact absurd h (by decide)
        | false =>
          cases h5 : ("tif" == format) with
          | true =>
            rw [beq_iff_eq] at h5
            subst h5
            exact absurd h (by decide)
          | false =>
            cases h6 : ("tiff" == format) with
            | true =>
              rw [beq_iff_eq] at h6
              subst h6
              exact absurd h (by decide)
            | false => simp [h1, h2, h3, h4, h5, h6]

/-! ## Claims -/

/-- Claim C1: for every body and all integers z, row (y), col (x), the
composite coordinate validation (the zoom bound, enforced by the route
constraints for Earth and Moon and by the handler for Mars and Mercury,
together with the handler's row/column bound checks, with the remaining
parameters at their defaults) succeeds exactly when 0 ≤ row < maxRows(z),
0 ≤ col < maxCols(z) and minZoom ≤ z ≤ maxZoom for that body; and each
handler's coordinate bound check fails with the 400 CoordinatesOutOfBounds
error exactly when the row/col bound is violated. -/
theorem C1_coordinate_validation :
    (∀ (z y x : Int) (now : PyDateTime), ymdAfter ⟨2025, 10, 3⟩ now.date = false →
      ((Earth.earth_resolve Earth.EARTH_DEFAULT_LAYER Earth.EARTH_DEFAULT_DATE z y x
          Earth.EARTH_DEFAULT_TMS "jpg" now).isOk = true ↔
        0 ≤ z ∧ z ≤ Earth.EARTH_MAX_ZOOM ∧ 0 ≤ y ∧ y < 2 ^ z.toNat ∧
          0 ≤ x ∧ x < 2 ^ z.toNat))
  ∧ (∀ z y x : Int,
      ((Moon.moon_resolve z y x Moon.MOON_DEFAULT_LAYER Moon.MOON_DEFAULT_VERSION
          Moon.MOON_DEFAULT_STYLE Moon.MOON_DEFAULT_TMS "jpg").isOk = true ↔
        0 ≤ z ∧ z ≤ Moon.MOON_MAX_ZOOM ∧ 0 ≤ y ∧ y < 2 ^ z.toNat ∧
          0 ≤ x ∧ x < 2 ^ z.toNat))
  ∧ (∀ z y x : Int,
      ((Mars.mars_resolve Mars.MARS_DEFAULT_MAX_ZOOM z y x Mars.MARS_DEFAULT_LAYER
          Mars.MARS_DEFAULT_VERSION Mars.MARS_DEFAULT_STYLE Mars.MARS_DEFAULT_TMS
          "jpg").isOk = true ↔
        0 ≤ z ∧ z ≤ Mars.MARS_DEFAULT_MAX_ZOOM ∧ 0 ≤ y ∧ y < 2 ^ z.toNat ∧
          0 ≤ x ∧ x < 2 ^ z.toNat))
  ∧ (∀ z x y : Int,
      ((Mercury.mercury_resolve z x y Mercury.MERCURY_DEFAULT_LAYER
          Mercury.MERCURY_DEFAULT_VERSION Mercury.MERCURY_DEFAULT_STYLE
          Mercury.MERCURY_DEFAULT_TMS "jpg").isOk = true ↔
        0 ≤ z ∧ z ≤ Mercury.MAX_ZOOM ∧ 0 ≤ x ∧ x < Mercury.max_tile_col z ∧
          0 ≤ y ∧ y < Mercury.max_tile_row z))
  ∧ (∀ z y x : Int, ¬ (0 ≤ x ∧ x < 2 ^ z.toNat ∧ 0 ≤ y ∧ y < 2 ^ z.toNat) →
      Earth.earth_coords_check z y x = .error (.coordsOutOfBounds z) ∧
      (ApiError.coordsOutOfBounds z).status = 400 ∧
      (ApiError.coordsOutOfBounds z).kind = .CoordinatesOutOfBounds)
  ∧ (∀ z y x : Int, ¬ (0 ≤ x ∧ x < 2 ^ z.toNat ∧ 0 ≤ y ∧ y < 2 ^ z.toNat) →
      Moon.moon_coords_check z y x = .error (.coordsOutOfBounds z))
  ∧ (∀ z x y : Int, ¬ (0 ≤ x ∧ x < 2 ^ z.toNat ∧ 0 ≤ y ∧ y < 2 ^ z.toNat) →
      Mars.validate_tile_coordinates z x y = .error (.coordsOutOfBounds z))
  ∧ (∀ z x : Int, ¬ (0 ≤ x ∧ x < Mercury.max_tile_col z) →
      Mercury.mercury_x_check z x = .error (.xOutOfBounds (Mercury.matrix_string z)) ∧
      (ApiError.xOutOfBounds (Mercury.matrix_string z)).status = 400 ∧
      (ApiError.xOutOfBounds (Mercury.matrix_string z)).kind = .CoordinatesOutOfBounds)
  ∧ (∀ z y : Int, ¬ (0 ≤ y ∧ y < Mercury.max_tile_row z) →
      Mercury.mercury_y_check z y = .error (.yOutOfBounds (Mercury.matrix_string z)) ∧
      (ApiError.yOutOfBounds (Mercury.matrix_string z)).status = 400 ∧
      (ApiError.yOutOfBounds (Mercury.matrix_string z)).kind = .CoordinatesOutOfBounds) := by
  refine ⟨?_, ?_, ?_, ?_, ?_, ?_, ?_, ?_, ?_⟩
  · intro z y x now hnow
    exact Earth.earth_resolve_isOk_iff Earth.EARTH_DEFAULT_LAYER Earth.EARTH_DEFAULT_TMS
      now hnow z y x
  · intro z y x
    exact Moon.moon_resolve_isOk_iff Moon.MOON_DEFAULT_LAYER Moon.MOON_DEFAULT_VERSION
      Moon.MOON_DEFAULT_STYLE Moon.MOON_DEFAULT_TMS z y x
  · intro z y x
    exact Mars.mars_resolve_isOk_iff Mars.MARS_DEFAULT_MAX_ZOOM Mars.MARS_DEFAULT_VERSION
      Mars.MARS_DEFAULT_STYLE Mars.MARS_DEFAULT_TMS z y x
  · intro z x y
    exact Mercury.mercury_resolve_isOk_iff Mercury.MERCURY_DEFAULT_LAYER
      Mercury.MERCURY_DEFAULT_VERSION Mercury.MERCURY_DEFAULT_STYLE
      Mercury.MERCURY_DEFAULT_TMS "jpg" (by decide) z x y
  · intro z y x h
    exact ⟨(Earth.earth_coords_check_error_iff z y x).mpr h, rfl, rfl⟩
  · intro z y x h
    exact (Moon.moon_coords_check_error_iff z y x).mpr h
  · intro z x y h
    exact (Mars.validate_tile_coordinates_error_iff z x y).mpr h
  · intro z x h
    exact ⟨(Mercury.mercury_x_check_error_iff z x).mpr h, rfl, rfl⟩
  · intro z y h
    exact ⟨(Mercury.mercury_y_check_error_iff z y).mpr h, rfl, rfl⟩

/-- Witness for C1 at concrete inputs: the Earth pipeline accepts
z=6, y=18, x=23, and the Mars coordinate check rejects z=3, x=10, y=2 with
the 400 CoordinatesOutOfBounds error. -/
theorem C1_coordinate_validation_witness :
    (Earth.earth_resolve Earth.EARTH_DEFAULT_LAYER Earth.EARTH_DEFAULT_DATE 6 18 23
        Earth.EARTH_DEFAULT_TMS "jpg" ⟨⟨2025, 10, 12⟩, 0⟩).isOk = true ∧
    Mars.validate_tile_coordinates 3 10 2 = .error (.coordsOutOfBounds 3) := by
  have h := C1_coordinate_validation
  exact ⟨(h.1 6 18 23 ⟨⟨2025, 10, 12⟩, 0⟩ (by decide)).mpr (by decide),
    (h.2.2.2.2.2.2.1 3 10 2 (by decide))⟩

/-- Claim C2: for every zoom within a body's bounds the coordinate bound
checks use a (2^z columns) × (2^z rows) matrix for Earth, Moon and Mars and a
(2^(z+1) columns) × (2^z rows) matrix for Mercury; and at Mercury zoom 3 the
request x=16 (y=0) is rejected with HTTP 400 reporting the matrix as 16×8. -/
theorem C2_tile_matrix_shape :
    (∀ z y x : Int, 0 ≤ z → z ≤ Earth.EARTH_MAX_ZOOM →
      (Earth.earth_coords_check z y x = .ok () ↔
        0 ≤ x ∧ x < 2 ^ z.toNat ∧ 0 ≤ y ∧ y < 2 ^ z.toNat))
  ∧ (∀ z y x : Int, 0 ≤ z → z ≤ Moon.MOON_MAX_ZOOM →
      (Moon.moon_coords_check z y x = .ok () ↔
        0 ≤ x ∧ x < 2 ^ z.toNat ∧ 0 ≤ y ∧ y < 2 ^ z.toNat))
  ∧ (∀ z x y : Int, 0 ≤ z → z ≤ Mars.MARS_DEFAULT_MAX_ZOOM →
      (Mars.validate_tile_coordinates z x y = .ok () ↔
        0 ≤ x ∧ x < 2 ^ z.toNat ∧ 0 ≤ y ∧ y < 2 ^ z.toNat))
  ∧ (∀ z : Int, 0 ≤ z →
      Mercury.max_tile_col z = 2 ^ (z.toNat + 1) ∧
      Mercury.max_tile_row z = 2 ^ z.toNat)
  ∧ (∀ z x y : Int, 0 ≤ z → z ≤ Mercury.MAX_ZOOM →
      ((Mercury.mercury_x_check z x = .ok () ↔ 0 ≤ x ∧ x < 2 ^ (z.toNat + 1)) ∧
       (Mercury.mercury_y_check z y = .ok () ↔ 0 ≤ y ∧ y < 2 ^ z.toNat)))
  ∧ (Mercury.mercury_resolve 3 16 0 Mercury.MERCURY_DEFAULT_LAYER
       Mercury.MERCURY_DEFAULT_VERSION Mercury.MERCURY_DEFAULT_STYLE
       Mercury.MERCURY_DEFAULT_TMS "jpg" = .error (.xOutOfBounds "16×8") ∧
     (ApiError.xOutOfBounds "16×8").status = 400 ∧
     Mercury.matrix_string 3 = "16×8") := by
  refine ⟨?_, ?_, ?_, ?_, ?_, by decide, by decide, by decide⟩
  · intro z y x _ _
    exact Earth.earth_coords_check_ok_iff z y x
  · intro z y x _ _
    exact Moon.moon_coords_check_ok_iff z y x
  · intro z x y _ _
    exact Mars.validate_tile_coordinates_ok_iff z x y
  · intro z hz
    have hcol : ((z + 1).toNat) = z.toNat + 1 := by omega
    constructor
    · unfold Mercury.max_tile_col
      rw [hcol]
    · rfl
  · intro z x y hz _
    have hshape : Mercury.max_tile_col z = 2 ^ (z.toNat + 1) ∧
        Mercury.max_tile_row z = 2 ^ z.toNat := by
      constructor
      · unfold Mercury.max_tile_col
        rw [show ((z + 1).toNat) = z.toNat + 1 from by omega]
      · rfl
    constructor
    · rw [Mercury.mercury_x_check_ok_iff, hshape.1]
    · rw [Mercury.mercury_y_check_ok_iff, hshape.2]

/-- Witness for C2 at concrete inputs: the Mercury checks at zoom 3 accept
x=15 and y=7 and the matrix shape is 16 columns by 8 rows. -/
theorem C2_tile_matrix_shape_witness :
    Mercury.mercury_x_check 3 15 = .ok () ∧ Mercury.mercury_y_check 3 7 = .ok () ∧
    Mercury.max_tile_col 3 = 16 ∧ Mercury.max_tile_row 3 = 8 := by
  have h := C2_tile_matrix_shape
  have hx := ((h.2.2.2.2.1 3 15 7 (by decide) (by decide)).1).mpr (by decide)
  have hy := ((h.2.2.2.2.1 3 15 7 (by decide) (by decide)).2).mpr (by decide)
  exact ⟨hx, hy, by decide, by decide⟩

/-- Claim C4: Mars layer resolution is idempotent and case-insensitive: it
depends only on the trimmed, lower-cased input, every alias in the table
resolves to its canonical ID (so resolving a canonical ID returns it
unchanged, and resolving "VIKING" equals resolving "viking"), and every
string whose normalization is not in the table fails with the 422
UnsupportedLayer error listing only the Viking and MOLA canonical layers. -/
theorem C4_layer_resolution :
    (∀ s t : String, pyLower (pyStrip s) = pyLower (pyStrip t) →
      ∀ c, Mars.normalize_layer s = .ok c ↔ Mars.normalize_layer t = .ok c)
  ∧ (∀ p : String × String, p ∈ Mars.SUPPORTED_LAYERS →
      Mars.normalize_layer p.1 = .ok p.2)
  ∧ Mars.normalize_layer "VIKING" = .ok Mars.VIKING_ID
  ∧ Mars.normalize_layer "viking" = .ok Mars.VIKING_ID
  ∧ Mars.normalize_layer "MOLA" = .ok Mars.MOLA_ID
  ∧ Mars.normalize_layer "mola" = .ok Mars.MOLA_ID
  ∧ Mars.normalize_layer Mars.VIKING_ID = .ok Mars.VIKING_ID
  ∧ Mars.normalize_layer Mars.MOLA_ID = .ok Mars.MOLA_ID
  ∧ (∀ s c : String, Mars.normalize_layer s = .ok c → Mars.normalize_layer c = .ok c)
  ∧ (∀ s : String, lookup? Mars.SUPPORTED_LAYERS (pyLower (pyStrip s)) = none →
      Mars.normalize_layer s =
        .error (.unsupportedLayer s [Mars.VIKING_ID, Mars.MOLA_ID]) ∧
      (ApiError.unsupportedLayer s [Mars.VIKING_ID, Mars.MOLA_ID]).status = 422 ∧
      (ApiError.unsupportedLayer s [Mars.VIKING_ID, Mars.MOLA_ID]).kind =
        .UnsupportedLayer)
  ∧ Mars.normalize_layer "CTX" =
      .error (.unsupportedLayer "CTX" [Mars.VIKING_ID, Mars.MOLA_ID]) := by
  refine ⟨Mars.normalize_layer_keys_dependent, by decide, by decide, by decide,
    by decide, by decide, by decide, by decide, Mars.normalize_layer_idempotent,
    ?_, by decide⟩
  intro s hnone
  refine ⟨?_, rfl, rfl⟩
  unfold Mars.normalize_layer
  rw [hnone]

/-- Witness for C4 at concrete inputs: "VIKING" and "viking" resolve to the
same canonical ID, resolution is idempotent on that result, and "CTX"
normalizes to a lookup miss, hence the 422 UnsupportedLayer error. -/
theorem C4_layer_resolution_witness :
    (Mars.normalize_layer "VIKING" = .ok Mars.VIKING_ID ↔
      Mars.normalize_layer "viking" = .ok Mars.VIKING_ID)
  ∧ Mars.normalize_layer Mars.VIKING_ID = .ok Mars.VIKING_ID
  ∧ Mars.normalize_layer "CTX" =
      .error (.unsupportedLayer "CTX" [Mars.VIKING_ID, Mars.MOLA_ID]) := by
  have h := C4_layer_resolution
  refine ⟨h.1 "VIKING" "viking" (by decide) Mars.VIKING_ID, ?_, ?_⟩
  · exact h.2.2.2.2.2.2.2.2.1 "viking" Mars.VIKING_ID (by decide)
  · exact (h.2.2.2.2.2.2.2.2.2.1 "CTX" (by decide)).1

/-- Claim C6: for every body, when validation fails the endpoint returns that
validation error and its result does not depend on the upstream fetch oracle
at all — no upstream request influences the outcome of an invalid input. -/
theorem C6_validation_short_circuits_fetch :
    (∀ (layer date tms format : String) (z y x : Int) (now : PyDateTime)
        (e : ApiError) (f g : String → FetchOutcome),
      Earth.earth_resolve layer date z y x tms format now = .error e →
        Earth.get_earth_tile layer date z y x tms format now f = .error e ∧
        Earth.get_earth_tile layer date z y x tms format now f =
          Earth.get_earth_tile layer date z y x tms format now g)
  ∧ (∀ (z y x : Int) (layer version style tms format : String)
        (e : ApiError) (f g : String → FetchOutcome),
      Moon.moon_resolve z y x layer version style tms format = .error e →
        Moon.get_moon_tile z y x layer version style tms format f = .error e ∧
        Moon.get_moon_tile z y x layer version style tms format f =
          Moon.get_moon_tile z y x layer version style tms format g)
  ∧ (∀ (maxZoom z y x : Int) (layer version style tms format : String)
        (e : ApiError) (f g : String → FetchOutcome),
      Mars.mars_resolve maxZoom z y x layer version style tms format = .error e →
        Mars.get_mars_tile maxZoom z y x layer version style tms format f = .error e ∧
        Mars.get_mars_tile maxZoom z y x layer version style tms format f =
          Mars.get_mars_tile maxZoom z y x layer version style tms format g)
  ∧ (∀ (z x y : Int) (layer version style tms format : String)
        (e : ApiError) (f g : String → FetchOutcome),
      Mercury.mercury_resolve z x y layer version style tms format = .error e →
        Mercury.get_mercury_tile z x y layer version style tms format f = .error e ∧
        Mercury.get_mercury_tile z x y layer version style tms format f =
          Mercury.get_mercury_tile z x y layer version style tms format g) := by
  refine ⟨?_, ?_, ?_, ?_⟩
  · intro layer date tms format z y x now e f g h
    unfold Earth.get_earth_tile
    rw [h]
    exact ⟨rfl, rfl⟩
  · intro z y x layer version style tms format e f g h
    unfold Moon.get_moon_tile
    rw [h]
    exact ⟨rfl, rfl⟩
  · intro maxZoom z y x layer version style tms format e f g h
    unfold Mars.get_mars_tile
    rw [h]
    exact ⟨rfl, rfl⟩
  · intro z x y layer version style tms format e f g h
    unfold Mercury.get_mercury_tile
    rw [h]
    exact ⟨rfl, rfl⟩

/-- Witness for C6 at a concrete input: an out-of-bounds Mars request returns
the coordinate error for two different fetch oracles, one of which would
report success. -/
theorem C6_validation_short_circuits_fetch_witness :
    Mars.get_mars_tile 7 3 99 0 Mars.MARS_DEFAULT_LAYER Mars.MARS_DEFAULT_VERSION
        Mars.MARS_DEFAULT_STYLE Mars.MARS_DEFAULT_TMS "jpg"
        (fun _ => FetchOutcome.resp 200 [1]) = .error (.coordsOutOfBounds 3) ∧
    Mars.get_mars_tile 7 3 99 0 Mars.MARS_DEFAULT_LAYER Mars.MARS_DEFAULT_VERSION
        Mars.MARS_DEFAULT_STYLE Mars.MARS_DEFAULT_TMS "jpg"
        (fun _ => FetchOutcome.resp 200 [1]) =
      Mars.get_mars_tile 7 3 99 0 Mars.MARS_DEFAULT_LAYER Mars.MARS_DEFAULT_VERSION
        Mars.MARS_DEFAULT_STYLE Mars.MARS_DEFAULT_TMS "jpg"
        (fun _ => FetchOutcome.timeout) := by
  exact C6_validation_short_circuits_fetch.2.2.1 7 3 99 0 Mars.MARS_DEFAULT_LAYER
    Mars.MARS_DEFAULT_VERSION Mars.MARS_DEFAULT_STYLE Mars.MARS_DEFAULT_TMS "jpg"
    (.coordsOutOfBounds 3) (fun _ => FetchOutcome.resp 200 [1])
    (fun _ => FetchOutcome.timeout) (by decide)

/-- Claim C3 counterexample: an Earth request with zoom 10 (above the maximum
9) is rejected with the framework's 422 parameter-validation error, not a 400
ZoomOutOfRange error as the claim states. -/
theorem C3_zoom_range_counterexample :
    Earth.get_earth_tile Earth.EARTH_DEFAULT_LAYER Earth.EARTH_DEFAULT_DATE 10 0 0
        Earth.EARTH_DEFAULT_TMS "jpg" ⟨⟨2025, 10, 12⟩, 0⟩
        (fun _ => FetchOutcome.timeout) = .error .requestValidation ∧
    ApiError.requestValidation.status = 422 ∧
    ApiError.requestValidation.status ≠ 400 ∧
    ApiError.requestValidation.kind ≠ .ZoomOutOfRange :=
  ⟨by decide, by decide, by decide, by decide⟩

/-- Claim C3 (amended): out-of-range zoom is always rejected, but the error
differs per body: Mars (maximum MARS_MAX_ZOOM, default 7, environment
overridable, minimum 0) and Mercury (maximum 7) reject it inside the handler
with a 400 ZoomOutOfRange error, while Earth (maximum 9) and Moon (maximum
10) declare the bound as a route query constraint, so such requests fail with
the framework's 422 parameter-validation error before the handler runs. -/
theorem C3_zoom_range :
    (∀ maxZoom z : Int, z < 0 ∨ z > maxZoom →
      Mars.validate_zoom_level maxZoom z =
        .error (.zoomOutOfRange z Mars.MIN_ZOOM maxZoom) ∧
      (ApiError.zoomOutOfRange z Mars.MIN_ZOOM maxZoom).status = 400 ∧
      (ApiError.zoomOutOfRange z Mars.MIN_ZOOM maxZoom).kind = .ZoomOutOfRange)
  ∧ Mars.MARS_DEFAULT_MAX_ZOOM = 7 ∧ Mars.MIN_ZOOM = 0
  ∧ (∀ z : Int, z < 0 ∨ z > Mercury.MAX_ZOOM →
      Mercury.mercury_zoom_check z = .error (.zoomOutOfRange z 0 Mercury.MAX_ZOOM) ∧
      (ApiError.zoomOutOfRange z 0 Mercury.MAX_ZOOM).status = 400 ∧
      (ApiError.zoomOutOfRange z 0 Mercury.MAX_ZOOM).kind = .ZoomOutOfRange)
  ∧ Mercury.MAX_ZOOM = 7
  ∧ (∀ (z y x : Int) (layer date tms format : String) (now : PyDateTime),
      z < 0 ∨ z > Earth.EARTH_MAX_ZOOM →
      Earth.earth_resolve layer date z y x tms format now = .error .requestValidation ∧
      ApiError.requestValidation.status = 422)
  ∧ Earth.EARTH_MAX_ZOOM = 9
  ∧ (∀ (z y x : Int) (layer version style tms format : String),
      z < 0 ∨ z > Moon.MOON_MAX_ZOOM →
      Moon.moon_resolve z y x layer version style tms format = .error .requestValidation)
  ∧ Moon.MOON_MAX_ZOOM = 10 := by
  refine ⟨?_, rfl, rfl, ?_, rfl, ?_, rfl, ?_, rfl⟩
  · intro maxZoom z hz
    refine ⟨?_, rfl, rfl⟩
    exact (Mars.validate_zoom_level_error_iff maxZoom z).mpr (by omega)
  · intro z hz
    refine ⟨?_, rfl, rfl⟩
    exact (Mercury.mercury_zoom_check_error_iff z).mpr (by
      simp only [Mercury.MAX_ZOOM] at hz ⊢
      omega)
  · intro z y x layer date tms format now hz
    have hroute : ¬ (Earth.earth_route_ok date z y x format = true) := by
      rw [Earth.earth_route_ok_iff]
      intro hr
      obtain ⟨-, h1, h2, -⟩ := hr
      omega
    unfold Earth.earth_resolve
    rw [if_neg hroute]
    exact ⟨rfl, rfl⟩
  · intro z y x layer version style tms format hz
    have hroute : ¬ (Moon.moon_route_ok z y x format = true) := by
      rw [Moon.moon_route_ok_iff]
      intro hr
      obtain ⟨h1, h2, -⟩ := hr
      omega
    unfold Moon.moon_resolve
    rw [if_neg hroute]

/-- Witness for the amended C3 at concrete inputs: Mars zoom 9 (max 7) and
Mercury zoom 8 fail with 400 ZoomOutOfRange; Moon zoom 11 fails with the
framework's 422. -/
theorem C3_zoom_range_witness :
    Mars.validate_zoom_level 7 9 = .error (.zoomOutOfRange 9 Mars.MIN_ZOOM 7) ∧
    Mercury.mercury_zoom_check 8 = .error (.zoomOutOfRange 8 0 Mercury.MAX_ZOOM) ∧
    Moon.moon_resolve 11 0 0 Moon.MOON_DEFAULT_LAYER Moon.MOON_DEFAULT_VERSION
      Moon.MOON_DEFAULT_STYLE Moon.MOON_DEFAULT_TMS "jpg" = .error .requestValidation := by
  have h := C3_zoom_range
  exact ⟨(h.1 7 9 (by decide)).1, (h.2.2.2.1 8 (by decide)).1,
    h.2.2.2.2.2.2.2.1 11 0 0 Moon.MOON_DEFAULT_LAYER Moon.MOON_DEFAULT_VERSION
      Moon.MOON_DEFAULT_STYLE Moon.MOON_DEFAULT_TMS "jpg" (by decide)⟩

/-- Claim C5 counterexample: the string "hello" is not a calendar date, yet
the Earth endpoint rejects it with the framework's 422 parameter-validation
error (the route regex), not a 400 InvalidDate error as the claim states. -/
theorem C5_date_validation_counterexample :
    Earth.get_earth_tile Earth.EARTH_DEFAULT_LAYER "hello" 0 0 0
        Earth.EARTH_DEFAULT_TMS "jpg" ⟨⟨2025, 10, 12⟩, 0⟩
        (fun _ => FetchOutcome.timeout) = .error .requestValidation ∧
    ApiError.requestValidation.status = 422 ∧
    ApiError.requestValidation.status ≠ 400 ∧
    ApiError.requestValidation.kind ≠ .InvalidDate :=
  ⟨by decide, by decide, by decide, by decide⟩

/-- Claim C5 (amended): date strings failing the route's
digit-digit-digit-digit,dash,digit-digit,dash,digit-digit pattern are
rejected by the framework with 422 before the handler; strings matching the
pattern parse exactly when they denote a real calendar date (year ≥ 1, month
1..12, day within the leap-aware month length) — a parse failure is the 400
InvalidDate (format) error, a parsed date strictly after the current UTC date
is the 400 InvalidDate (future) error, any other parsed date is accepted; and
the future comparison is at day granularity against the current UTC date. -/
theorem C5_date_validation :
    (∀ (s layer tms format : String) (z y x : Int) (now : PyDateTime),
      dateRegexMatch s = false →
      Earth.earth_resolve layer s z y x tms format now = .error .requestValidation ∧
      ApiError.requestValidation.status = 422)
  ∧ (∀ (s : String) (now : PyDateTime), strptimeYmd s = none →
      Earth.validate_earth_date s now = .error (.invalidDateFormat s) ∧
      (ApiError.invalidDateFormat s).status = 400 ∧
      (ApiError.invalidDateFormat s).kind = .InvalidDate)
  ∧ (∀ (s : String) (p : YMD) (now : PyDateTime), strptimeYmd s = some p →
      (Earth.validate_earth_date s now = .ok () ↔ ymdAfter p now.date = false) ∧
      (ymdAfter p now.date = true →
        Earth.validate_earth_date s now = .error (.futureDate s) ∧
        (ApiError.futureDate s).status = 400 ∧
        (ApiError.futureDate s).kind = .InvalidDate))
  ∧ (∀ (p : YMD) (now : PyDateTime), pyAfter ⟨p, 0⟩ now = ymdAfter p now.date)
  ∧ (∀ (s : String) (p : YMD), strptimeYmd s = some p →
      1 ≤ p.year ∧ 1 ≤ p.month ∧ p.month ≤ 12 ∧ 1 ≤ p.day ∧
        p.day ≤ daysInMonth p.year p.month) := by
  refine ⟨?_, ?_, ?_, pyAfter_midnight, fun s p h => strptimeYmd_valid h⟩
  · intro s layer tms format z y x now hreg
    have hroute : ¬ (Earth.earth_route_ok s z y x format = true) := by
      rw [Earth.earth_route_ok_iff]
      intro hr
      rw [hreg] at hr
      exact Bool.noConfusion hr.1
    unfold Earth.earth_resolve
    rw [if_neg hroute]
    exact ⟨rfl, rfl⟩
  · intro s now hnone
    unfold Earth.validate_earth_date
    rw [hnone]
    exact ⟨rfl, rfl, rfl⟩
  · intro s p now hsome
    unfold Earth.validate_earth_date
    rw [hsome]
    dsimp only
    rw [pyAfter_midnight]
    constructor
    · cases hafter : ymdAfter p now.date <;> simp
    · intro hafter
      rw [hafter]
      exact ⟨rfl, rfl, rfl⟩

/-- Witness for the amended C5 at concrete inputs: "2025-02-30" matches the
pattern but is not a real date (400 InvalidDate); "2025-10-03" is accepted on
2025-10-12 and rejected as future on 2025-10-02 even though the clock is
mid-day (day granularity). -/
theorem C5_date_validation_witness :
    Earth.validate_earth_date "2025-02-30" ⟨⟨2025, 10, 12⟩, 0⟩ =
      .error (.invalidDateFormat "2025-02-30") ∧
    Earth.validate_earth_date "2025-10-03" ⟨⟨2025, 10, 12⟩, 0⟩ = .ok () ∧
    Earth.validate_earth_date "2025-10-03" ⟨⟨2025, 10, 2⟩, 43200⟩ =
      .error (.futureDate "2025-10-03") := by
  have h := C5_date_validation
  refine ⟨(h.2.1 "2025-02-30" ⟨⟨2025, 10, 12⟩, 0⟩ (by decide)).1, ?_, ?_⟩
  · exact ((h.2.2.1 "2025-10-03" ⟨2025, 10, 3⟩ ⟨⟨2025, 10, 12⟩, 0⟩ (by decide)).1).mpr
      (by decide)
  · exact ((h.2.2.1 "2025-10-03" ⟨2025, 10, 3⟩ ⟨⟨2025, 10, 2⟩, 43200⟩ (by decide)).2
      (by decide)).1

/-- Claim C9 counterexample: a Mercury request with format "png" and a
negative zoom (z = -1, out of range) is rejected with the framework's 422,
not the 406 UnsupportedFormat the claim promises for every request with a
non-jpg format. -/
theorem C9_mercury_format_first_counterexample :
    Mercury.get_mercury_tile (-1) 0 0 Mercury.MERCURY_DEFAULT_LAYER
        Mercury.MERCURY_DEFAULT_VERSION Mercury.MERCURY_DEFAULT_STYLE
        Mercury.MERCURY_DEFAULT_TMS "png" (fun _ => FetchOutcome.timeout) =
      .error .requestValidation ∧
    ApiError.requestValidation.status = 422 ∧
    ApiError.requestValidation.status ≠ 406 ∧
    ApiError.requestValidation.kind ≠ .UnsupportedFormat :=
  ⟨by decide, by decide, by decide, by decide⟩

/-- Claim C9 (amended): among requests admitted by the route constraints
(z, x, y all ≥ 0), the Mercury handler validates the format before zoom and
coordinates: whenever the format does not lower-case to "jpg" the result is
the 406 UnsupportedFormat error, even when the zoom exceeds the maximum or
the coordinates are out of bounds; requests with negative z, x or y are
instead rejected by the framework with 422. -/
theorem C9_mercury_format_first :
    (∀ (z x y : Int) (layer version style tms format : String)
        (fetch : String → FetchOutcome),
      0 ≤ z → 0 ≤ x → 0 ≤ y → pyLower format ≠ "jpg" →
      Mercury.get_mercury_tile z x y layer version style tms format fetch =
        .error (.unsupportedFormat format) ∧
      (ApiError.unsupportedFormat format).status = 406 ∧
      (ApiError.unsupportedFormat format).kind = .UnsupportedFormat)
  ∧ (∀ (z x y : Int) (layer version style tms format : String)
        (fetch : String → FetchOutcome),
      ¬ (0 ≤ z ∧ 0 ≤ x ∧ 0 ≤ y) →
      Mercury.get_mercury_tile z x y layer version style tms format fetch =
        .error .requestValidation) := by
  constructor
  · intro z x y layer version style tms format fetch hz hx hy hf
    have hres : Mercury.mercury_resolve z x y layer version style tms format =
        .error (.unsupportedFormat format) := by
      unfold Mercury.mercury_resolve
      rw [if_pos ((Mercury.mercury_route_ok_iff z x y).mpr ⟨hz, hx, hy⟩)]
      rw [Mercury.mercury_format_check_error format hf]
    unfold Mercury.get_mercury_tile
    rw [hres]
    exact ⟨rfl, rfl, rfl⟩
  · intro z x y layer version style tms format fetch hneg
    have hroute : ¬ (Mercury.mercury_route_ok z x y = true) := by
      rw [Mercury.mercury_route_ok_iff]
      exact hneg
    unfold Mercury.get_mercury_tile Mercury.mercury_resolve
    rw [if_neg hroute]

/-- Witness for the amended C9 at a concrete input: format "PNG" with zoom 99
(far above the maximum) and x=1000 (out of bounds) still yields the 406
UnsupportedFormat error. -/
theorem C9_mercury_format_first_witness :
    Mercury.get_mercury_tile 99 1000 0 Mercury.MERCURY_DEFAULT_LAYER
        Mercury.MERCURY_DEFAULT_VERSION Mercury.MERCURY_DEFAULT_STYLE
        Mercury.MERCURY_DEFAULT_TMS "PNG" (fun _ => FetchOutcome.timeout) =
      .error (.unsupportedFormat "PNG") := by
  exact (C9_mercury_format_first.1 99 1000 0 Mercury.MERCURY_DEFAULT_LAYER
    Mercury.MERCURY_DEFAULT_VERSION Mercury.MERCURY_DEFAULT_STYLE
    Mercury.MERCURY_DEFAULT_TMS "PNG" (fun _ => FetchOutcome.timeout)
    (by decide) (by decide) (by decide) (by decide)).1

/-- Claim C7 counterexample: Mercury maps the 2xx status 204 to a 502
UpstreamError instead of Success, and the Earth handler classifies a timeout
as the NetworkError kind, not a distinct Timeout kind. -/
theorem C7_upstream_classification_counterexample :
    Mercury.mercury_classify "jpg" "u" (.resp 204 [7]) =
      .error (.upstreamError502 204) ∧
    (Mercury.mercury_classify "jpg" "u" (.resp 204 [7])).isOk = false ∧
    (ApiError.upstreamError502 204).status = 502 ∧
    Earth.earth_classify "jpg" "u" .timeout = .error .networkError ∧
    ApiError.networkError.kind ≠ .Timeout :=
  ⟨by decide, by decide, by decide, by decide, by decide⟩

/-- Claim C7 (amended): upstream outcome classification per body.  Earth,
Moon and Mars: upstream 404 is the 404 TileNotFound error; any other 2xx is
Success carrying the raw bytes and the Content-Type from the static format
map (default image/jpeg); any other status is re-raised as an UpstreamError
with the same status code; connection failures and timeouts are both the 502
NetworkError (those handlers do not distinguish a Timeout kind).  Mercury:
404 is TileNotFound; only status 200 is Success (every other status, 2xx
included, is a 502 UpstreamError); connection failures are the 502
NetworkError and timeouts the 502 Timeout. -/
theorem C7_upstream_classification :
    (∀ (format url : String) (content : List Nat),
      Earth.earth_classify format url (.resp 404 content) = .error (.tileNotFound url) ∧
      Moon.moon_classify format url (.resp 404 content) = .error (.tileNotFound url) ∧
      Mars.mars_classify format url (.resp 404 content) = .error (.tileNotFound url) ∧
      Mercury.mercury_classify format url (.resp 404 content) =
        .error (.tileNotFound url) ∧
      (ApiError.tileNotFound url).status = 404 ∧
      (ApiError.tileNotFound url).kind = .TileNotFound)
  ∧ (∀ (format url : String) (status : Nat) (content : List Nat),
      200 ≤ status → status ≤ 299 →
      Earth.earth_classify format url (.resp status content) =
        .ok ⟨content, dictGet CONTENT_TYPE_MAP format "image/jpeg",
             "public, max-age=" ++ toString Earth.EARTH_CACHE_MAX_AGE⟩ ∧
      Moon.moon_classify format url (.resp status content) =
        .ok ⟨content, dictGet CONTENT_TYPE_MAP format "image/jpeg",
             "public, max-age=" ++ toString Moon.MOON_CACHE_MAX_AGE⟩ ∧
      Mars.mars_classify format url (.resp status content) =
        .ok ⟨content, dictGet CONTENT_TYPE_MAP format "image/jpeg",
             "public, max-age=" ++ toString Mars.MARS_CACHE_MAX_AGE⟩)
  ∧ (∀ (format url : String) (status : Nat) (content : List Nat),
      ¬ (200 ≤ status ∧ status ≤ 299) → status ≠ 404 →
      Earth.earth_classify format url (.resp status content) =
        .error (.upstreamStatus status) ∧
      Moon.moon_classify format url (.resp status content) =
        .error (.upstreamStatus status) ∧
      Mars.mars_classify format url (.resp status content) =
        .error (.upstreamStatus status) ∧
      (ApiError.upstreamStatus status).status = status ∧
      (ApiError.upstreamStatus status).kind = .UpstreamError)
  ∧ (∀ format url : String,
      Earth.earth_classify format url .timeout = .error .networkError ∧
      Earth.earth_classify format url .connError = .error .networkError ∧
      Moon.moon_classify format url .timeout = .error .networkError ∧
      Moon.moon_classify format url .connError = .error .networkError ∧
      Mars.mars_classify format url .timeout = .error .networkError ∧
      Mars.mars_classify format url .connError = .error .networkError ∧
      ApiError.networkError.status = 502 ∧
      ApiError.networkError.kind = .NetworkError)
  ∧ (∀ (format url : String) (content : List Nat),
      Mercury.mercury_classify format url (.resp 200 content) =
        .ok ⟨content, dictGet CONTENT_TYPE_MAP format "image/jpeg",
             "public, max-age=" ++ toString Mercury.MERCURY_CACHE_MAX_AGE⟩)
  ∧ (∀ (format url : String) (status : Nat) (content : List Nat),
      status ≠ 200 → status ≠ 404 →
      Mercury.mercury_classify format url (.resp status content) =
        .error (.upstreamError502 status) ∧
      (ApiError.upstreamError502 status).status = 502 ∧
      (ApiError.upstreamError502 status).kind = .UpstreamError)
  ∧ (∀ format url : String,
      Mercury.mercury_classify format url .timeout = .error .requestTimeout ∧
      Mercury.mercury_classify format url .connError = .error .networkError ∧
      ApiError.requestTimeout.status = 502 ∧
      ApiError.requestTimeout.kind = .Timeout)
  ∧ (dictGet CONTENT_TYPE_MAP "jpg" "image/jpeg" = "image/jpeg"
  ∧ dictGet CONTENT_TYPE_MAP "jpeg" "image/jpeg" = "image/jpeg"
  ∧ dictGet CONTENT_TYPE_MAP "png" "image/jpeg" = "image/png"
  ∧ dictGet CONTENT_TYPE_MAP "png8" "image/jpeg" = "image/png"
  ∧ dictGet CONTENT_TYPE_MAP "tif" "image/jpeg" = "image/tiff"
  ∧ dictGet CONTENT_TYPE_MAP "tiff" "image/jpeg" = "image/tiff"
  ∧ (∀ f : String, f ∉ CONTENT_TYPE_MAP.map Prod.fst →
      dictGet CONTENT_TYPE_MAP f "image/jpeg" = "image/jpeg")) := by
  refine ⟨?_, ?_, ?_, ?_, ?_, ?_, ?_, by decide, by decide, by decide, by decide,
    by decide, by decide, ?_⟩
  · intro format url content
    exact ⟨rfl, rfl, rfl, rfl, rfl, rfl⟩
  · intro format url status content h1 h2
    have h404 : ¬ ((status == 404) = true) := by simp; omega
    have h2xx : 200 ≤ status ∧ status ≤ 299 := ⟨h1, h2⟩
    refine ⟨?_, ?_, ?_⟩
    · unfold Earth.earth_classify
      dsimp only
      rw [if_neg h404, if_pos h2xx]
    · unfold Moon.moon_classify
      dsimp only
      rw [if_neg h404, if_pos h2xx]
    · unfold Mars.mars_classify
      dsimp only
      rw [if_neg h404, if_pos h2xx]
  · intro format url status content hnot h404
    have h404b : ¬ ((status == 404) = true) := by simpa using h404
    refine ⟨?_, ?_, ?_, rfl, rfl⟩
    · unfold Earth.earth_classify
      dsimp only
      rw [if_neg h404b, if_neg hnot]
    · unfold Moon.moon_classify
      dsimp only
      rw [if_neg h404b, if_neg hnot]
    · unfold Mars.mars_classify
      dsimp only
      rw [if_neg h404b, if_neg hnot]
  · intro format url
    exact ⟨rfl, rfl, rfl, rfl, rfl, rfl, rfl, rfl⟩
  · intro format url content
    rfl
  · intro format url status content h200 h404
    have h404b : ¬ ((status == 404) = true) := by simpa using h404
    refine ⟨?_, rfl, rfl⟩
    unfold Mercury.mercury_classify
    dsimp only
    rw [if_neg h404b, if_pos h200]
  · intro format url
    exact ⟨rfl, rfl, rfl, rfl⟩
  · intro f hf
    unfold dictGet
    cases hfind : CONTENT_TYPE_MAP.find? (fun p => p.1 == f) with
    | none => rfl
    | some p =>
      exfalso
      have hmem := List.mem_of_find?_eq_some hfind
      have hpred := List.find?_some hfind
      rw [beq_iff_eq] at hpred
      apply hf
      rw [← hpred]
      exact List.mem_map_of_mem Prod.fst hmem

/-- Witness for the amended C7 at concrete inputs: an Earth 201 response is a
Success with Content-Type image/png for format png, and a Mercury 503
response is the 502 UpstreamError. -/
theorem C7_upstream_classification_witness :
    Earth.earth_classify "png" "u" (.resp 201 [5]) =
      .ok ⟨[5], dictGet CONTENT_TYPE_MAP "png" "image/jpeg",
           "public, max-age=" ++ toString Earth.EARTH_CACHE_MAX_AGE⟩ ∧
    Mercury.mercury_classify "jpg" "u" (.resp 503 []) =
      .error (.upstreamError502 503) := by
  have h := C7_upstream_classification
  exact ⟨(h.2.1 "png" "u" 201 [5] (by decide) (by decide)).1,
    (h.2.2.2.2.2.1 "jpg" "u" 503 [] (by decide) (by decide)).1⟩

/-- Claim C8: URL building is deterministic (the resolved URL is uniquely
determined by the parameters), the Earth (GIBS) URL always has the shape
base/layer/default/date/tileMatrixSet/z/y/x.format with the literal segment
"default" in the style position and tile order z/y/x, and the Trek URL for
Moon, Mars (with the canonical resolved layer) and Mercury has the shape
base/layer/version/style/tileMatrixSet/z/y/x.format. -/
theorem C8_url_shape :
    (∀ (layer date tms format : String) (z y x : Int) (now : PyDateTime)
        (u v : String),
      Earth.earth_resolve layer date z y x tms format now = .ok u →
      Earth.earth_resolve layer date z y x tms format now = .ok v → u = v)
  ∧ (∀ (layer date tms format : String) (z y x : Int) (now : PyDateTime)
        (u : String),
      Earth.earth_resolve layer date z y x tms format now = .ok u →
      u = Earth.GIBS_BASE_URL ++ "/" ++ layer ++ "/default/" ++ date ++ "/" ++ tms ++
        "/" ++ toString z ++ "/" ++ toString y ++ "/" ++ toString x ++ "." ++ format)
  ∧ (∀ (z y x : Int) (layer version style tms format u : String),
      Moon.moon_resolve z y x layer version style tms format = .ok u →
      u = Moon.TREK_MOON_BASE_URL ++ "/" ++ layer ++ "/" ++ version ++ "/" ++ style ++
        "/" ++ tms ++ "/" ++ toString z ++ "/" ++ toString y ++ "/" ++ toString x ++
        "." ++ format)
  ∧ (∀ (maxZoom z y x : Int) (layer version style tms format u : String),
      Mars.mars_resolve maxZoom z y x layer version style tms format = .ok u →
      ∃ canonical, Mars.normalize_layer layer = .ok canonical ∧
        u = Mars.TREK_MARS_BASE_URL ++ "/" ++ canonical ++ "/" ++ version ++ "/" ++
          style ++ "/" ++ tms ++ "/" ++ toString z ++ "/" ++ toString y ++ "/" ++
          toString x ++ "." ++ format)
  ∧ (∀ (z x y : Int) (layer version style tms format u : String),
      Mercury.mercury_resolve z x y layer version style tms format = .ok u →
      u = Mercury.TREK_MERCURY_BASE_URL ++ "/" ++ layer ++ "/" ++ version ++ "/" ++
        style ++ "/" ++ tms ++ "/" ++ toString z ++ "/" ++ toString y ++ "/" ++
        toString x ++ "." ++ format) := by
  refine ⟨?_, ?_, ?_, ?_, ?_⟩
  · intro layer date tms format z y x now u v hu hv
    rw [hu] at hv
    simpa using hv
  · intro layer date tms format z y x now u h
    unfold Earth.earth_resolve at h
    split at h
    · split at h
      · exact Except.noConfusion h
      · split at h
        · exact Except.noConfusion h
        · simp only [Except.ok.injEq] at h
          subst h
          rfl
    · exact Except.noConfusion h
  · intro z y x layer version style tms format u h
    unfold Moon.moon_resolve at h
    split at h
    · split at h
      · exact Except.noConfusion h
      · simp only [Except.ok.injEq] at h
        subst h
        rfl
    · exact Except.noConfusion h
  · intro maxZoom z y x layer version style tms format u h
    unfold Mars.mars_resolve at h
    split at h
    · split at h
      · exact Except.noConfusion h
      · split at h
        · exact Except.noConfusion h
        · rename_i canonical heq
          split at h
          · exact Except.noConfusion h
          · simp only [Except.ok.injEq] at h
            subst h
            exact ⟨canonical, heq, rfl⟩
    · exact Except.noConfusion h
  · intro z x y layer version style tms format u h
    unfold Mercury.mercury_resolve at h
    split at h
    · split at h
      · exact Except.noConfusion h
      · split at h
        · exact Except.noConfusion h
        · split at h
          · exact Except.noConfusion h
          · split at h
            · exact Except.noConfusion h
            · simp only [Except.ok.injEq] at h
              subst h
              rfl
    · exact Except.noConfusion h

/-- Witness for C8 at a concrete input: the resolved Earth URL for the
default layer and date at z=6, y=18, x=23 equals the template instance. -/
theorem C8_url_shape_witness :
    ("https://gibs.earthdata.nasa.gov/wmts/epsg3857/best/VIIRS_SNPP_CorrectedReflectance_TrueColor/default/2025-10-03/GoogleMapsCompatible_Level9/6/18/23.jpg" : String) =
      Earth.GIBS_BASE_URL ++ "/" ++ Earth.EARTH_DEFAULT_LAYER ++ "/default/" ++
        Earth.EARTH_DEFAULT_DATE ++ "/" ++ Earth.EARTH_DEFAULT_TMS ++ "/" ++
        toString (6 : Int) ++ "/" ++ toString (18 : Int) ++ "/" ++
        toString (23 : Int) ++ "." ++ "jpg" := by
  exact C8_url_shape.2.1 Earth.EARTH_DEFAULT_LAYER Earth.EARTH_DEFAULT_DATE
    Earth.EARTH_DEFAULT_TMS "jpg" 6 18 23 ⟨⟨2025, 10, 12⟩, 0⟩ _ (by decide)

/-- Claim C10: Mercury's strict format check is case-insensitive: any format
string lower-casing to "jpg" passes the check, the upstream URL keeps the
caller's original casing as the file extension, and the response Content-Type
falls back to image/jpeg. -/
theorem C10_mercury_format_case :
    ∀ format : String, pyLower format = "jpg" →
      Mercury.mercury_format_check format = .ok ()
    ∧ (∀ (z x y : Int) (layer version style tms : String),
        0 ≤ z → z ≤ Mercury.MAX_ZOOM → 0 ≤ x → x < Mercury.max_tile_col z →
        0 ≤ y → y < Mercury.max_tile_row z →
        Mercury.mercury_resolve z x y layer version style tms format =
          .ok (Mercury.TREK_MERCURY_BASE_URL ++ "/" ++ layer ++ "/" ++ version ++
            "/" ++ style ++ "/" ++ tms ++ "/" ++ toString z ++ "/" ++ toString y ++
            "/" ++ toString x ++ "." ++ format))
    ∧ dictGet CONTENT_TYPE_MAP format "image/jpeg" = "image/jpeg"
    ∧ (∀ (url : String) (content : List Nat),
        Mercury.mercury_classify format url (.resp 200 content) =
          .ok ⟨content, "image/jpeg",
               "public, max-age=" ++ toString Mercury.MERCURY_CACHE_MAX_AGE⟩) := by
  intro format hf
  refine ⟨(Mercury.mercury_format_check_ok_iff format).mpr hf, ?_,
    dictGet_lower_jpg hf, ?_⟩
  · intro z x y layer version style tms hz0 hz7 hx0 hxc hy0 hyr
    exact Mercury.mercury_resolve_ok_eq layer version style tms format hf z x y
      hz0 hz7 hx0 hxc hy0 hyr
  · intro url content
    have hstep : Mercury.mercury_classify format url (.resp 200 content) =
        .ok ⟨content, dictGet CONTENT_TYPE_MAP format "image/jpeg",
             "public, max-age=" ++ toString Mercury.MERCURY_CACHE_MAX_AGE⟩ := rfl
    rw [hstep, dictGet_lower_jpg hf]

/-- Witness for C10 at a concrete input: format "JPG" passes the check, the
resolved URL ends with the caller's original ".JPG", and the Content-Type
falls back to image/jpeg. -/
theorem C10_mercury_format_case_witness :
    Mercury.mercury_format_check "JPG" = .ok () ∧
    Mercury.mercury_resolve 3 8 4 Mercury.MERCURY_DEFAULT_LAYER
        Mercury.MERCURY_DEFAULT_VERSION Mercury.MERCURY_DEFAULT_STYLE
        Mercury.MERCURY_DEFAULT_TMS "JPG" =
      .ok (Mercury.TREK_MERCURY_BASE_URL ++ "/" ++ Mercury.MERCURY_DEFAULT_LAYER ++
        "/" ++ Mercury.MERCURY_DEFAULT_VERSION ++ "/" ++ Mercury.MERCURY_DEFAULT_STYLE ++
        "/" ++ Mercury.MERCURY_DEFAULT_TMS ++ "/" ++ toString (3 : Int) ++ "/" ++
        toString (4 : Int) ++ "/" ++ toString (8 : Int) ++ "." ++ "JPG") ∧
    dictGet CONTENT_TYPE_MAP "JPG" "image/jpeg" = "image/jpeg" := by
  have h := C10_mercury_format_case "JPG" (by decide)
  exact ⟨h.1, h.2.1 3 8 4 Mercury.MERCURY_DEFAULT_LAYER Mercury.MERCURY_DEFAULT_VERSION
    Mercury.MERCURY_DEFAULT_STYLE Mercury.MERCURY_DEFAULT_TMS (by decide) (by decide)
    (by decide) (by decide) (by decide) (by decide), h.2.2.1⟩

end Cosmozoom
